import Mathlib

/-!
Shallow embedding of the property-management backend
(kovikov/WEBSITE-FOUNDATION-Frontend-Backend-).

External effects (the OpenAI LLM call, bcrypt hashing, JWT encoding,
SMTP/IMAP, uuid generation, wall-clock time) are modelled as explicit
function or value parameters; the database session is modelled as an
explicit list of records threaded through each handler.  Exceptions are
modelled with `Except`: `PyExc` is an arbitrary Python exception carrying
its `str()` message, `HTTPError` is FastAPI's HTTPException with status
code and detail.  Floats that the code compares (confidence scores) are
embedded as rationals; the decimal literals 0.8, 0.7, 0.5 are exact in
both representations, so the comparisons agree with the Python floats.
-/

/-- Model of an arbitrary Python exception: only its `str(e)` message is
observable in the code under study. -/
structure PyExc where
  msg : String
  deriving Repr, DecidableEq

/-- Model of `fastapi.HTTPException` with its status code and detail. -/
structure HTTPError where
  status_code : Nat
  detail : String
  deriving Repr, DecidableEq

/-- Model of `str(e)` for a `starlette.exceptions.HTTPException`, which
renders as "status_code: detail"; used where the code raises an
HTTPException inside a `try` block whose generic handler re-raises
`HTTPException(500, str(e))`. -/
def strHTTPException (status_code : Nat) (detail : String) : String :=
  toString status_code ++ ": " ++ detail

/-- The proposition that string `sub` occurs as a substring of `s`. -/
def containsStr (s sub : String) : Prop :=
  ∃ pre post, s = pre ++ sub ++ post

/- ===== backend/email_classifier.py ===== -/

/-- Pydantic model `EmailCategory` from email_classifier.py. -/
structure EmailCategory where
  category : String
  confidence : ℚ
  department : String
  priority : String
  deriving Repr, DecidableEq

/-- One value of the `EmailClassifier.CATEGORIES` dict. -/
structure CatInfo where
  department : String
  priority : String
  description : String
  deriving Repr, DecidableEq

/-- The `EmailClassifier.CATEGORIES` dict, embedded as a lookup
function on its keys (four fixed categories). -/
def CATEGORIES (c : String) : Option CatInfo :=
  if c = "complaint" then
    some ⟨"Customer Service", "high", "Customer complaints and dissatisfaction"⟩
  else if c = "rent_issue" then
    some ⟨"Finance", "high", "Rent payment issues and queries"⟩
  else if c = "service_request" then
    some ⟨"Maintenance", "medium", "Maintenance and repair requests"⟩
  else if c = "general_inquiry" then
    some ⟨"General Support", "low", "General questions and information requests"⟩
  else none

/-- Insertion order of the keys of `CATEGORIES` (Python dicts preserve
insertion order); used to build the classification prompt. -/
def categoryKeys : List String :=
  ["complaint", "rent_issue", "service_request", "general_inquiry"]

/-- The prompt string built by `classify_email` from the email content. -/
def classificationPrompt (email_content : String) : String :=
  "Classify the following email into one of these categories: "
    ++ String.intercalate ", " categoryKeys
    ++ "\n            Email content: " ++ email_content
    ++ "\n            Provide the classification in JSON format with category, confidence score (0-1), and explanation."

/-- Python `str.split()` whitespace (the ASCII whitespace characters). -/
def isPySpace (c : Char) : Bool :=
  c == ' ' || c == '\t' || c == '\n' || c == '\r' || c == '\x0b' || c == '\x0c'

/-- Python `str.lower()` (ASCII case folding on the characters). -/
def pyLower (s : String) : String :=
  String.mk (s.data.map Char.toLower)

/-- Worker for `pySplit`: walks the characters, accumulating the current
word (reversed) in `acc` and emitting it at each whitespace run or at the
end. -/
def pySplitGo : List Char → List Char → List String
  | [], acc => if acc.isEmpty then [] else [String.mk acc.reverse]
  | c :: cs, acc =>
    if isPySpace c then
      if acc.isEmpty then pySplitGo cs []
      else String.mk acc.reverse :: pySplitGo cs []
    else pySplitGo cs (c :: acc)

/-- Python `s.split()` with no separator: split on runs of whitespace and
drop empty pieces. -/
def pySplit (s : String) : List String :=
  pySplitGo s.data []

/-- Model of the statements `category = classification.lower().split()[0]`
followed by `if category not in EmailClassifier.CATEGORIES: category =
"general_inquiry"` (applied to a first word `w` already extracted). -/
def categoryFor (w : String) : String :=
  if (CATEGORIES w).isSome then w else "general_inquiry"

/-- `EmailClassifier.classify_email`.  The OpenAI chat call is the
parameter `llm`, mapping the user prompt to either the reply text
(`response.choices[0].message.content`) or a raised exception.  The body
runs inside `try ... except Exception as e: raise HTTPException(500,
f"Error classifying email: str(e)")`; `classification.lower().split()[0]`
raises IndexError ("list index out of range") when the reply has no
words, which that handler turns into the 500 error.  The hard-coded
confidence 0.8 is `mkRat 8 10`. -/
def classify_email (llm : String → Except PyExc String)
    (email_content : String) : Except HTTPError EmailCategory :=
  match llm (classificationPrompt email_content) with
  | .error e => .error ⟨500, "Error classifying email: " ++ e.msg⟩
  | .ok classification =>
    match (pySplit (pyLower classification)).head? with
    | none => .error ⟨500, "Error classifying email: list index out of range"⟩
    | some w =>
      match CATEGORIES (categoryFor w) with
      | some info => .ok ⟨categoryFor w, mkRat 8 10, info.department, info.priority⟩
      | none => .error ⟨500, "Error classifying email: key error"⟩

/-- `EmailClassifier.should_escalate`; the float literals 0.7 and 0.5 of
the source are the rationals `mkRat 7 10` and `mkRat 5 10`. -/
def should_escalate (category : EmailCategory) : Bool :=
  (category.priority == "high" && decide (category.confidence > mkRat 7 10))
    || decide (category.confidence < mkRat 5 10)

theorem ofScientific_r08 : (0.8 : ℚ) = mkRat 8 10 := by norm_num [mkRat]

theorem ofScientific_r07 : (0.7 : ℚ) = mkRat 7 10 := by norm_num [mkRat]

theorem ofScientific_r05 : (0.5 : ℚ) = mkRat 5 10 := by norm_num [mkRat]

/-- C2: should_escalate is a boolean function of exactly the two fields
priority and confidence, true iff (priority = "high" and
confidence > 0.7) or confidence < 0.5. -/
theorem C2_should_escalate_two_field_check :
    (∀ c : EmailCategory,
      should_escalate c = true ↔
        ((c.priority = "high" ∧ c.confidence > (0.7 : ℚ))
          ∨ c.confidence < (0.5 : ℚ)))
    ∧ (∀ (c : EmailCategory) (cat dept : String),
      should_escalate { c with category := cat, department := dept }
        = should_escalate c) := by
  constructor
  · intro c
    rw [ofScientific_r07, ofScientific_r05]
    simp [should_escalate, beq_iff_eq]
  · intro c cat dept
    simp [should_escalate]

instance {e a : Type} [DecidableEq e] [DecidableEq a] : DecidableEq (Except e a) := fun x y =>
  match x, y with
  | .ok v, .ok w =>
    if h : v = w then .isTrue (by rw [h]) else .isFalse (by intro hc; cases hc; exact h rfl)
  | .error v, .error w =>
    if h : v = w then .isTrue (by rw [h]) else .isFalse (by intro hc; cases hc; exact h rfl)
  | .ok _, .error _ => .isFalse (by intro hc; cases hc)
  | .error _, .ok _ => .isFalse (by intro hc; cases hc)

theorem CATEGORIES_categoryFor (w : String) :
    ∃ info, CATEGORIES (categoryFor w) = some info := by
  unfold categoryFor
  by_cases h : (CATEGORIES w).isSome = true
  · rw [if_pos h]
    exact Option.isSome_iff_exists.mp h
  · rw [if_neg h]
    exact ⟨_, rfl⟩

theorem categoryFor_mem (w : String) :
    categoryFor w = "complaint" ∨ categoryFor w = "rent_issue"
      ∨ categoryFor w = "service_request" ∨ categoryFor w = "general_inquiry" := by
  unfold categoryFor
  by_cases h : (CATEGORIES w).isSome = true
  · rw [if_pos h]
    unfold CATEGORIES at h
    split_ifs at h with h1 h2 h3 h4
    · exact Or.inl h1
    · exact Or.inr (Or.inl h2)
    · exact Or.inr (Or.inr (Or.inl h3))
    · exact Or.inr (Or.inr (Or.inr h4))
    · simp at h
  · rw [if_neg h]
    exact Or.inr (Or.inr (Or.inr rfl))

theorem CATEGORIES_complaint :
    CATEGORIES "complaint"
      = some ⟨"Customer Service", "high", "Customer complaints and dissatisfaction"⟩ := by decide

theorem CATEGORIES_rent_issue :
    CATEGORIES "rent_issue"
      = some ⟨"Finance", "high", "Rent payment issues and queries"⟩ := by decide

theorem CATEGORIES_service_request :
    CATEGORIES "service_request"
      = some ⟨"Maintenance", "medium", "Maintenance and repair requests"⟩ := by decide

theorem CATEGORIES_general_inquiry :
    CATEGORIES "general_inquiry"
      = some ⟨"General Support", "low", "General questions and information requests"⟩ := by decide

theorem classify_email_ok_cases (llm : String → Except PyExc String)
    (content : String) (c : EmailCategory)
    (h : classify_email llm content = .ok c) :
    c = ⟨"complaint", mkRat 8 10, "Customer Service", "high"⟩
      ∨ c = ⟨"rent_issue", mkRat 8 10, "Finance", "high"⟩
      ∨ c = ⟨"service_request", mkRat 8 10, "Maintenance", "medium"⟩
      ∨ c = ⟨"general_inquiry", mkRat 8 10, "General Support", "low"⟩ := by
  unfold classify_email at h
  cases hl : llm (classificationPrompt content) with
  | error e => simp only [hl] at h; exact Except.noConfusion h
  | ok reply =>
    simp only [hl] at h
    cases hw : (pySplit (pyLower reply)).head? with
    | none => simp only [hw] at h; exact Except.noConfusion h
    | some w =>
      simp only [hw] at h
      rcases categoryFor_mem w with hcf | hcf | hcf | hcf <;>
        simp only [hcf, CATEGORIES_complaint, CATEGORIES_rent_issue,
          CATEGORIES_service_request, CATEGORIES_general_inquiry, Except.ok.injEq] at h
      · exact Or.inl h.symm
      · exact Or.inr (Or.inl h.symm)
      · exact Or.inr (Or.inr (Or.inl h.symm))
      · exact Or.inr (Or.inr (Or.inr h.symm))

/-- C1 counterexample: with the LLM replying the empty string, the first
word extraction `classification.lower().split()[0]` raises IndexError, so
classify_email raises the generic 500 error instead of returning any
EmailCategory; the claim's universal statement over every reply fails. -/
theorem C1_counterexample :
    classify_email (fun _ => .ok "") ""
        = .error ⟨500, "Error classifying email: list index out of range"⟩
      ∧ ¬ ∃ c : EmailCategory, classify_email (fun _ => .ok "") "" = .ok c := by
  have h : classify_email (fun _ => .ok "") ""
      = .error ⟨500, "Error classifying email: list index out of range"⟩ := by decide
  refine ⟨h, ?_⟩
  rintro ⟨c, hc⟩
  rw [h] at hc
  exact Except.noConfusion hc

/-- C1 (amended): whenever the LLM call returns a reply whose lowercasing
contains at least one whitespace-separated word, classify_email returns an
EmailCategory with confidence exactly 0.8; if that first word is not one
of the four fixed categories the returned category is "general_inquiry"
(otherwise it is the first word itself), and the returned department and
priority equal the CATEGORIES table entries for the returned category. -/
theorem C1_classify_email_amended (llm : String → Except PyExc String)
    (content reply w : String)
    (hl : llm (classificationPrompt content) = .ok reply)
    (hw : (pySplit (pyLower reply)).head? = some w) :
    ∃ c, classify_email llm content = .ok c
      ∧ c.confidence = (0.8 : ℚ)
      ∧ ((CATEGORIES w).isSome = false → c.category = "general_inquiry")
      ∧ ((CATEGORIES w).isSome = true → c.category = w)
      ∧ ∃ info, CATEGORIES c.category = some info
          ∧ c.department = info.department ∧ c.priority = info.priority := by
  obtain ⟨info, hinfo⟩ := CATEGORIES_categoryFor w
  refine ⟨⟨categoryFor w, mkRat 8 10, info.department, info.priority⟩,
    ?_, ofScientific_r08.symm, ?_, ?_, info, hinfo, rfl, rfl⟩
  · simp only [classify_email, hl, hw, hinfo]
  · intro hfalse
    simp [categoryFor, hfalse]
  · intro htrue
    simp [categoryFor, htrue]

theorem C1_witness :
    ∃ c, classify_email (fun _ => .ok "Service_Request please fix") "hello" = .ok c
      ∧ c.confidence = (0.8 : ℚ)
      ∧ ((CATEGORIES "service_request").isSome = false → c.category = "general_inquiry")
      ∧ ((CATEGORIES "service_request").isSome = true → c.category = "service_request")
      ∧ ∃ info, CATEGORIES c.category = some info
          ∧ c.department = info.department ∧ c.priority = info.priority :=
  C1_classify_email_amended (fun _ => .ok "Service_Request please fix") "hello"
    "Service_Request please fix" "service_request" rfl (by decide)

/-- C9: every EmailCategory actually produced by classify_email has
confidence 0.8, so should_escalate on it is true exactly when its priority
is "high", which happens exactly for categories "complaint" and
"rent_issue"; the confidence-below-0.5 branch is unreachable for such
values. -/
theorem C9_escalation_iff_high_priority (llm : String → Except PyExc String)
    (content : String) (c : EmailCategory)
    (h : classify_email llm content = .ok c) :
    (should_escalate c = true ↔ c.priority = "high")
      ∧ (c.priority = "high" ↔ (c.category = "complaint" ∨ c.category = "rent_issue"))
      ∧ ¬ (c.confidence < (0.5 : ℚ)) := by
  rw [ofScientific_r05]
  rcases classify_email_ok_cases llm content c h with h4 | h4 | h4 | h4 <;> subst h4 <;>
    refine ⟨?_, ?_, ?_⟩ <;> decide

theorem C9_witness :
    should_escalate ⟨"complaint", mkRat 8 10, "Customer Service", "high"⟩ = true :=
  (C9_escalation_iff_high_priority (fun _ => .ok "complaint accepted") ""
    ⟨"complaint", mkRat 8 10, "Customer Service", "high"⟩ (by decide)).1.mpr rfl

/- ===== backend/models.py, backend/schemas.py, backend/main.py ===== -/

/-- Row of the `users` table (models.User); `id` is the uuid4 string
default, timestamps are omitted as no handler under study reads them. -/
structure UserRecord where
  id : String
  email : String
  hashed_password : String
  full_name : String
  role : String
  is_active : Bool
  deriving Repr, DecidableEq

/-- Request body `schemas.UserCreate`. -/
structure UserCreate where
  email : String
  full_name : String
  role : String
  password : String
  deriving Repr, DecidableEq

/-- Request body `schemas.UserLogin`. -/
structure UserLogin where
  email : String
  password : String
  deriving Repr, DecidableEq

/-- The `POST /register` handler `register_user` of main.py.  The
bcrypt hash `schemas.get_password_hash` is the parameter `hash`, the
uuid4 primary-key default is the parameter `new_id`, and the database
session is the list `db` (a query filtering on email models
`db.query(User).filter(User.email == ...).first()` as `List.find?`;
`db.add` plus `commit` appends the row). -/
def register_user (hash : String → String) (new_id : String)
    (user : UserCreate) (db : List UserRecord) :
    Except HTTPError UserRecord × List UserRecord :=
  match db.find? (fun u => u.email == user.email) with
  | some _ => (.error ⟨400, "Email already registered"⟩, db)
  | none =>
    let new_user : UserRecord :=
      ⟨new_id, user.email, hash user.password, user.full_name, user.role, true⟩
    (.ok new_user, db ++ [new_user])

/-- The `POST /login` handler of main.py.  `verify` is
`schemas.verify_password` (bcrypt verification of the plain password
against the stored hash) and `create_access_token` is the JWT issuer
applied to the "sub" claim. -/
def login (verify : String → String → Bool) (create_access_token : String → String)
    (user_credentials : UserLogin) (db : List UserRecord) :
    Except HTTPError (String × String) :=
  match db.find? (fun u => u.email == user_credentials.email) with
  | none => .error ⟨401, "Incorrect email or password"⟩
  | some user =>
    if verify user_credentials.password user.hashed_password then
      .ok (create_access_token user.email, "bearer")
    else .error ⟨401, "Incorrect email or password"⟩

/-- Request body `schemas.PropertyCreate`. -/
structure PropertyCreate where
  address : String
  property_type : String
  size : ℚ
  bedrooms : Int
  bathrooms : Int
  rent_amount : ℚ
  status : String
  deriving Repr, DecidableEq

/-- Row of the `properties` table (models.Property). -/
structure PropertyRecord where
  id : Nat
  address : String
  property_type : String
  size : ℚ
  bedrooms : Int
  bathrooms : Int
  rent_amount : ℚ
  status : String
  created_at : Nat
  deriving Repr, DecidableEq

/-- The `POST /properties` handler `create_property` of main.py; the
integer primary-key default is `new_id` and `datetime.utcnow` is `now`. -/
def create_property (property : PropertyCreate) (current_user : UserRecord)
    (new_id : Nat) (now : Nat) (db : List PropertyRecord) :
    Except HTTPError PropertyRecord × List PropertyRecord :=
  if current_user.role != "admin" then
    (.error ⟨403, "Not authorized to create properties"⟩, db)
  else
    let db_property : PropertyRecord :=
      ⟨new_id, property.address, property.property_type, property.size,
        property.bedrooms, property.bathrooms, property.rent_amount,
        property.status, now⟩
    (.ok db_property, db ++ [db_property])

/-- Request body `schemas.MaintenanceTicketCreate`. -/
structure MaintenanceTicketCreate where
  title : String
  description : String
  priority : String
  property_id : Nat
  deriving Repr, DecidableEq

/-- Row of the `maintenance_tickets` table (models.MaintenanceTicket). -/
structure MaintenanceTicketRecord where
  id : Nat
  title : String
  description : String
  status : String
  priority : String
  created_at : Nat
  updated_at : Nat
  user_id : String
  property_id : Nat
  deriving Repr, DecidableEq

/-- The `POST /tickets` handler `create_ticket` of main.py: builds a
MaintenanceTicket from the request fields plus `user_id=current_user.id`
and `status="pending"`, adds it and returns the refreshed row. -/
def main_create_ticket (ticket : MaintenanceTicketCreate)
    (current_user : UserRecord) (new_id : Nat) (now : Nat)
    (db : List MaintenanceTicketRecord) :
    MaintenanceTicketRecord × List MaintenanceTicketRecord :=
  let db_ticket : MaintenanceTicketRecord :=
    ⟨new_id, ticket.title, ticket.description, "pending", ticket.priority,
      now, now, current_user.id, ticket.property_id⟩
  (db_ticket, db ++ [db_ticket])

/- ===== backend/ticket_system.py ===== -/

/-- Request body `TicketCreate` of ticket_system.py. -/
structure TicketCreate where
  title : String
  description : String
  category : String
  priority : String
  deriving Repr, DecidableEq

/-- Row of the `tickets` table (models.Ticket); `qube_case_id` is the
attribute that qube_integration.py writes on the row and the webhook
filters on, and `updated_at`/`created_at` are the timestamp columns. -/
structure TicketRecord where
  id : String
  title : String
  description : String
  category : String
  priority : String
  status : String
  ai_response : Option String
  staff_response : Option String
  user_id : String
  qube_case_id : Option String
  created_at : Nat
  updated_at : Nat
  deriving Repr, DecidableEq

/-- `generate_ai_response` of ticket_system.py.  The chroma query, the
ticket-history query and the OpenAI call all sit inside one `try`, so they
are collapsed into the single parameter `llm_response` (the generated
reply text, or whichever exception any of those calls raised); on any
exception the function logs and returns the fixed fallback string. -/
def generate_ai_response (llm_response : Except PyExc String) : String :=
  match llm_response with
  | .ok content => content
  | .error _ => "Thank you for your ticket. Our team will review it shortly."

/-- The `POST /api/tickets` handler `create_ticket` of ticket_system.py:
inserts the row with `status="open"` and `user_id=current_user.id`,
then stores `generate_ai_response`'s result in `ai_response` and returns
the row.  `generate_ai_response` never raises, so the surrounding
`except ... raise HTTPException(500, str(e))` is unreachable here. -/
def ts_create_ticket (llm_response : Except PyExc String) (ticket : TicketCreate)
    (current_user : UserRecord) (new_id : String) (now : Nat)
    (db : List TicketRecord) :
    Except HTTPError TicketRecord × List TicketRecord :=
  let db_ticket : TicketRecord :=
    { id := new_id, title := ticket.title, description := ticket.description,
      category := ticket.category, priority := ticket.priority,
      status := "open", ai_response := none, staff_response := none,
      user_id := current_user.id, qube_case_id := none,
      created_at := now, updated_at := now }
  let refreshed := { db_ticket with ai_response := some (generate_ai_response llm_response) }
  (.ok refreshed, db ++ [refreshed])

/-- The `GET /api/tickets/ticket_id` handler `get_ticket` of
ticket_system.py.  The `HTTPException(404, "Ticket not found")` raised on
a missing ticket is itself caught by the handler's own
`except Exception as e: raise HTTPException(500, str(e))`, so the caller
observes a 500 whose detail is the str() of the 404. -/
def get_ticket (ticket_id : String) (current_user : UserRecord)
    (db : List TicketRecord) : Except HTTPError TicketRecord :=
  match db.find? (fun t => t.id == ticket_id && t.user_id == current_user.id) with
  | some t => .ok t
  | none => .error ⟨500, strHTTPException 404 "Ticket not found"⟩

/- ===== src/email_notifications.py ===== -/

/-- `send_email` of email_notifications.py.  The SMTP interaction is the
parameter `smtp_send`; on any exception the function prints the failure
and returns None, so the caller always observes a normal return. -/
def notifications_send_email (smtp_send : Except PyExc Unit) : Except HTTPError Unit :=
  match smtp_send with
  | .ok _ => .ok ()
  | .error _ => .ok ()

/- ===== backend/qube_integration.py ===== -/

/-- The "case" object of a Qube webhook payload (the fields the handler
reads). -/
structure QubeCaseData where
  case_id : String
  status : String
  deriving Repr, DecidableEq

/-- A parsed Qube webhook JSON payload: `payload.get("event_type")` and
`payload.get("case")`. -/
structure WebhookPayload where
  event_type : Option String
  case_data : Option QubeCaseData
  deriving Repr, DecidableEq

/-- The `db.query(Ticket).filter(Ticket.qube_case_id == case_id).first()`
update in the webhook: set status (and updated_at) on the first ticket
whose qube_case_id matches, leaving every other row unchanged. -/
def update_ticket_status (db : List TicketRecord) (cid status : String)
    (now : Nat) : List TicketRecord :=
  match db with
  | [] => []
  | t :: ts =>
    if t.qube_case_id == some cid then
      { t with status := status, updated_at := now } :: ts
    else t :: update_ticket_status ts cid status now

/-- The `POST /api/qube/webhook` handler `qube_webhook` of
qube_integration.py.  `jwt_encode` is `jwt.encode(payload,
QUBE_WEBHOOK_SECRET, algorithm="HS256")` as a function of the payload
(secret and algorithm fixed by configuration); `signature` is the
`X-Qube-Signature` header.  Both `HTTPException(401, ...)` raises happen
inside the handler's `try`, so the generic handler reports them as 500
with the str() of the 401; a "case.updated" event with no "case" object
raises TypeError at the `case_data["case_id"]` subscript.  The success
value is the `"status": "success"` body. -/
def qube_webhook (jwt_encode : WebhookPayload → String)
    (signature : Option String) (payload : WebhookPayload) (now : Nat)
    (db : List TicketRecord) : Except HTTPError String × List TicketRecord :=
  match signature with
  | none => (.error ⟨500, strHTTPException 401 "Missing signature"⟩, db)
  | some s =>
    if s != jwt_encode payload then
      (.error ⟨500, strHTTPException 401 "Invalid signature"⟩, db)
    else if payload.event_type == some "case.updated" then
      match payload.case_data with
      | none => (.error ⟨500, "argument of type NoneType is not subscriptable"⟩, db)
      | some cd => (.ok "success", update_ticket_status db cd.case_id cd.status now)
    else (.ok "success", db)

/- ===== backend/email_scanner.py ===== -/

/-- An inbox message as the scanner sees it after fetching and decoding:
decoded subject, parsed sender address, and extracted plain-text body. -/
structure RawEmail where
  subject : String
  sender : String
  body : String
  deriving Repr, DecidableEq

/-- One entry of the list `process_unread_emails` returns (the
`processed_at` wall-clock string is omitted). -/
structure ProcessedEmail where
  id : Nat
  subject : String
  sender : String
  category : String
  deriving Repr, DecidableEq

/-- `EmailScanner.department_routes` with the default environment
values, embedded as a lookup function on its keys. -/
def department_routes (category : String) : Option String :=
  if category = "complaint" then some "complaints@propertypro.com"
  else if category = "rent_issue" then some "arrears@propertypro.com"
  else if category = "service_request" then some "repairs@propertypro.com"
  else if category = "legal" then some "legal@propertypro.com"
  else if category = "praise" then some "customer-service@propertypro.com"
  else if category = "general_inquiry" then some "support@propertypro.com"
  else none

/-- The body of one iteration of the scan loop in
`process_unread_emails`: fetch and decode the message (`fetch`, covering
`imap.fetch`, subject decoding, sender parsing and body extraction),
classify it with `EmailClassifier.classify_email` (whose HTTPException
propagates as an exception carrying its str()), forward it when its
category has a department route (`forward`, the SMTP send), and build the
processed-email entry. -/
def process_one_email (fetch : Nat → Except PyExc RawEmail)
    (llm : String → Except PyExc String)
    (forward : String → RawEmail → Except PyExc Unit)
    (num : Nat) : Except PyExc ProcessedEmail :=
  match fetch num with
  | .error e => .error e
  | .ok msg =>
    match classify_email llm msg.body with
    | .error e => .error ⟨strHTTPException e.status_code e.detail⟩
    | .ok category =>
      match department_routes category.category with
      | some route =>
        match forward route msg with
        | .error e => .error e
        | .ok _ => .ok ⟨num, msg.subject, msg.sender, category.category⟩
      | none => .ok ⟨num, msg.subject, msg.sender, category.category⟩

/-- The scan loop of `EmailScanner.process_unread_emails` over the list
of unread message numbers: each iteration runs inside
`try ... except: continue`, appending its entry to the result only when
no exception was raised. -/
def process_unread_emails (fetch : Nat → Except PyExc RawEmail)
    (llm : String → Except PyExc String)
    (forward : String → RawEmail → Except PyExc Unit) :
    List Nat → List ProcessedEmail
  | [] => []
  | num :: rest =>
    match process_one_email fetch llm forward num with
    | .ok entry => entry :: process_unread_emails fetch llm forward rest
    | .error _ => process_unread_emails fetch llm forward rest

/-- C5: login raises HTTP 401 "Incorrect email or password" exactly when
no user with the given email exists in the store or the supplied password
does not bcrypt-verify against the found user's hashed password; otherwise
it returns a bearer access token issued for that user's email.  (When the
query finds no user the first conjunct's hypothesis is vacuous, so the
error case covers both missing user and wrong password.) -/
theorem C5_login_rejects_wrong_password
    (verify : String → String → Bool) (create_access_token : String → String)
    (user_credentials : UserLogin) (db : List UserRecord) :
    (login verify create_access_token user_credentials db
        = .error ⟨401, "Incorrect email or password"⟩ ↔
      ∀ u, db.find? (fun v => v.email == user_credentials.email) = some u →
        verify user_credentials.password u.hashed_password = false)
    ∧ (∀ u, db.find? (fun v => v.email == user_credentials.email) = some u →
        verify user_credentials.password u.hashed_password = true →
        login verify create_access_token user_credentials db
          = .ok (create_access_token u.email, "bearer")) := by
  constructor
  · constructor
    · intro herr u hu
      simp only [login, hu] at herr
      by_cases hv : verify user_credentials.password u.hashed_password = true
      · rw [if_pos hv] at herr
        exact Except.noConfusion herr
      · simpa using hv
    · intro hall
      unfold login
      cases hu : db.find? (fun v => v.email == user_credentials.email) with
      | none => rfl
      | some u =>
        have hf := hall u hu
        simp [hf]
  · intro u hu hv
    simp [login, hu, hv]

theorem C5_witness :
    login (fun p h => p == h) (fun e => "token-" ++ e)
        ⟨"a@b.com", "pw"⟩ [⟨"u1", "a@b.com", "pw", "Alice", "tenant", true⟩]
      = .ok ("token-" ++ "a@b.com", "bearer") :=
  (C5_login_rejects_wrong_password (fun p h => p == h) (fun e => "token-" ++ e)
      ⟨"a@b.com", "pw"⟩ [⟨"u1", "a@b.com", "pw", "Alice", "tenant", true⟩]).2
    ⟨"u1", "a@b.com", "pw", "Alice", "tenant", true⟩ (by decide) rfl

/-- C6: create_property raises HTTP 403 and leaves the property store
unchanged for every authenticated user whose role is not "admin"; for an
admin the property built from the request is appended to the store and
returned. -/
theorem C6_create_property_admin_only (property : PropertyCreate)
    (current_user : UserRecord) (new_id : Nat) (now : Nat)
    (db : List PropertyRecord) :
    (current_user.role ≠ "admin" →
      create_property property current_user new_id now db
        = (.error ⟨403, "Not authorized to create properties"⟩, db))
    ∧ (current_user.role = "admin" →
      create_property property current_user new_id now db
        = (.ok ⟨new_id, property.address, property.property_type, property.size,
            property.bedrooms, property.bathrooms, property.rent_amount,
            property.status, now⟩,
          db ++ [⟨new_id, property.address, property.property_type, property.size,
            property.bedrooms, property.bathrooms, property.rent_amount,
            property.status, now⟩])) := by
  constructor
  · intro h
    simp [create_property, bne_iff_ne, h]
  · intro h
    simp [create_property, h]

theorem C6_witness :
    create_property ⟨"1 Main St", "apartment", 50, 1, 1, 1000, "available"⟩
        ⟨"u1", "a@b.com", "h", "Alice", "tenant", true⟩ 1 0 []
      = (.error ⟨403, "Not authorized to create properties"⟩, []) :=
  (C6_create_property_admin_only ⟨"1 Main St", "apartment", 50, 1, 1, 1000, "available"⟩
      ⟨"u1", "a@b.com", "h", "Alice", "tenant", true⟩ 1 0 []).1 (by decide)

/-- C7: both ticket-creation endpoints persist a record and return that
persisted record: the returned ticket's title, description and priority
equal the request's, its user_id is the current user's id, and its status
is the creation default, "pending" in main.py's maintenance-ticket
endpoint and "open" in ticket_system.py's support-ticket endpoint. -/
theorem C7_create_ticket_returns_persisted (ticket : MaintenanceTicketCreate)
    (sticket : TicketCreate) (llm_response : Except PyExc String)
    (current_user : UserRecord) (mid : Nat) (sid : String) (now : Nat)
    (mdb : List MaintenanceTicketRecord) (sdb : List TicketRecord) :
    ((main_create_ticket ticket current_user mid now mdb).2
        = mdb ++ [(main_create_ticket ticket current_user mid now mdb).1]
      ∧ (main_create_ticket ticket current_user mid now mdb).1.title = ticket.title
      ∧ (main_create_ticket ticket current_user mid now mdb).1.description
          = ticket.description
      ∧ (main_create_ticket ticket current_user mid now mdb).1.priority
          = ticket.priority
      ∧ (main_create_ticket ticket current_user mid now mdb).1.user_id
          = current_user.id
      ∧ (main_create_ticket ticket current_user mid now mdb).1.status = "pending")
    ∧ (∃ t, ts_create_ticket llm_response sticket current_user sid now sdb
          = (.ok t, sdb ++ [t])
        ∧ t.title = sticket.title ∧ t.description = sticket.description
        ∧ t.priority = sticket.priority ∧ t.user_id = current_user.id
        ∧ t.status = "open") :=
  ⟨⟨rfl, rfl, rfl, rfl, rfl, rfl⟩, ⟨_, rfl, rfl, rfl, rfl, rfl, rfl⟩⟩

/-- The user store's email-uniqueness invariant: no two rows share an
email address. -/
def emailsDistinct (db : List UserRecord) : Prop :=
  db.Pairwise (fun a b => a.email ≠ b.email)

/-- A sequence of register_user calls, each with its uuid4 primary key,
threading the store through (`register_user` returns the store unchanged
on the 400 path). -/
def register_all (hash : String → String) (reqs : List (String × UserCreate))
    (db : List UserRecord) : List UserRecord :=
  reqs.foldl (fun acc r => (register_user hash r.1 r.2 acc).2) db

theorem register_user_preserves_emailsDistinct (hash : String → String)
    (new_id : String) (user : UserCreate) (db : List UserRecord)
    (h : emailsDistinct db) :
    emailsDistinct (register_user hash new_id user db).2 := by
  unfold register_user
  cases hf : db.find? (fun u => u.email == user.email) with
  | some u => exact h
  | none =>
    have hnone := List.find?_eq_none.mp hf
    unfold emailsDistinct
    rw [List.pairwise_append]
    refine ⟨h, List.pairwise_singleton _ _, ?_⟩
    intro a ha b hb
    have hb' : b = ⟨new_id, user.email, hash user.password, user.full_name, user.role, true⟩ := by
      simpa using hb
    subst hb'
    intro he
    exact absurd (by simpa using he) (hnone a ha)

/-- C8: email uniqueness is an invariant of the user store.
register_user answers HTTP 400 "Email already registered" and leaves the
store unchanged whenever a user with the requested email exists, and
starting from a store with pairwise-distinct emails every sequence of
register operations preserves pairwise-distinctness of emails. -/
theorem C8_email_uniqueness_invariant (hash : String → String)
    (reqs : List (String × UserCreate)) (db : List UserRecord)
    (h : emailsDistinct db) :
    emailsDistinct (register_all hash reqs db)
    ∧ (∀ (new_id : String) (user : UserCreate) (u : UserRecord),
        db.find? (fun v => v.email == user.email) = some u →
        register_user hash new_id user db
          = (.error ⟨400, "Email already registered"⟩, db)) := by
  constructor
  · induction reqs generalizing db with
    | nil => exact h
    | cons r rest ih =>
      exact ih ((register_user hash r.1 r.2 db).2)
        (register_user_preserves_emailsDistinct hash r.1 r.2 db h)
  · intro new_id user u hu
    simp [register_user, hu]

theorem C8_witness :
    emailsDistinct (register_all (fun p => p)
        [("u1", ⟨"a@b.com", "Alice", "tenant", "pw"⟩),
         ("u2", ⟨"a@b.com", "Bob", "tenant", "pw2"⟩)] [])
    ∧ (∀ (new_id : String) (user : UserCreate) (u : UserRecord),
        ([] : List UserRecord).find? (fun v => v.email == user.email) = some u →
        register_user (fun p => p) new_id user []
          = (.error ⟨400, "Email already registered"⟩, [])) :=
  C8_email_uniqueness_invariant (fun p => p)
    [("u1", ⟨"a@b.com", "Alice", "tenant", "pw"⟩),
     ("u2", ⟨"a@b.com", "Bob", "tenant", "pw2"⟩)] [] List.Pairwise.nil

/-- C3 counterexample: an exception raised by the external calls inside
generate_ai_response while handling ticket creation is NOT reported to
the caller as an HTTP 500 carrying its message — the handler succeeds
with the fallback AI response instead, refuting the claim's universal
"every exception is reported as a generic 500" at this concrete input. -/
theorem C3_counterexample :
    ¬ ∃ d, ((ts_create_ticket (.error ⟨"boom"⟩) ⟨"t", "desc", "cat", "low"⟩
        ⟨"u1", "a@b.com", "h", "Alice", "tenant", true⟩ "t1" 0 []).1
          = .error ⟨500, d⟩ ∧ containsStr d "boom") := by
  rintro ⟨d, hd, -⟩
  exact Except.noConfusion hd

/-- C3 (amended): handlers in ticket_system.py report every exception of
their body as HTTP 500 with str(e) as detail — including HTTPExceptions
they raised themselves, so get_ticket's 404 on a missing ticket reaches
the caller as a 500 whose detail contains "Ticket not found" — and there
is no retry logic; but two cited functions swallow errors instead of
reporting them: generate_ai_response returns a fixed fallback string on
any exception, and email_notifications.send_email returns normally on
any exception. -/
theorem C3_error_reporting_amended (ticket_id : String)
    (current_user : UserRecord) (db : List TicketRecord) (e : PyExc)
    (hmiss : db.find? (fun t => t.id == ticket_id && t.user_id == current_user.id)
      = none) :
    (get_ticket ticket_id current_user db
        = .error ⟨500, strHTTPException 404 "Ticket not found"⟩
      ∧ containsStr (strHTTPException 404 "Ticket not found") "Ticket not found")
    ∧ generate_ai_response (.error e)
        = "Thank you for your ticket. Our team will review it shortly."
    ∧ notifications_send_email (.error e) = .ok () := by
  refine ⟨⟨?_, "404: ", "", by decide⟩, rfl, rfl⟩
  simp only [get_ticket, hmiss]

theorem C3_witness :
    (get_ticket "t1" ⟨"u1", "a@b.com", "h", "Alice", "tenant", true⟩ []
        = .error ⟨500, strHTTPException 404 "Ticket not found"⟩
      ∧ containsStr (strHTTPException 404 "Ticket not found") "Ticket not found")
    ∧ generate_ai_response (.error ⟨"boom"⟩)
        = "Thank you for your ticket. Our team will review it shortly."
    ∧ notifications_send_email (.error ⟨"boom"⟩) = .ok () :=
  C3_error_reporting_amended "t1" ⟨"u1", "a@b.com", "h", "Alice", "tenant", true⟩
    [] ⟨"boom"⟩ rfl

/-- C4: qube_webhook rejects a request with a missing X-Qube-Signature
header, and a request whose header differs from the recomputed signature
(jwt.encode of the payload with the configured webhook secret, HS256),
in both cases leaving the ticket store unchanged; the store changes only
for a matching request whose event_type is "case.updated", and then only
by updating the status of the ticket matching the payload's case id. -/
theorem C4_webhook_signature (jwt_encode : WebhookPayload → String)
    (signature : Option String) (payload : WebhookPayload) (now : Nat)
    (db : List TicketRecord) :
    (signature = none →
      qube_webhook jwt_encode signature payload now db
        = (.error ⟨500, strHTTPException 401 "Missing signature"⟩, db))
    ∧ (∀ s, signature = some s → s ≠ jwt_encode payload →
      qube_webhook jwt_encode signature payload now db
        = (.error ⟨500, strHTTPException 401 "Invalid signature"⟩, db))
    ∧ ((qube_webhook jwt_encode signature payload now db).2 ≠ db →
      signature = some (jwt_encode payload)
        ∧ payload.event_type = some "case.updated"
        ∧ ∃ cd, payload.case_data = some cd
            ∧ (qube_webhook jwt_encode signature payload now db).2
                = update_ticket_status db cd.case_id cd.status now) := by
  refine ⟨?_, ?_, ?_⟩
  · intro h
    subst h
    rfl
  · intro s hs hne
    subst hs
    simp [qube_webhook, bne_iff_ne, hne]
  · intro hchanged
    cases signature with
    | none => exact absurd rfl hchanged
    | some s =>
      by_cases hseq : s = jwt_encode payload
      · subst hseq
        simp only [qube_webhook, bne_self_eq_false, Bool.false_eq_true,
          if_false] at hchanged ⊢
        by_cases hev : payload.event_type == some "case.updated"
        · rw [if_pos hev] at hchanged ⊢
          cases hcd : payload.case_data with
          | none =>
            rw [hcd] at hchanged
            exact absurd rfl hchanged
          | some cd =>
            rw [hcd] at hchanged
            exact ⟨trivial, eq_of_beq hev, cd, rfl, rfl⟩
        · rw [if_neg hev] at hchanged
          exact absurd rfl hchanged
      · have heq : qube_webhook jwt_encode (some s) payload now db
            = (.error ⟨500, strHTTPException 401 "Invalid signature"⟩, db) := by
          simp [qube_webhook, bne_iff_ne, hseq]
        rw [heq] at hchanged
        exact absurd rfl hchanged

theorem C4_witness :
    qube_webhook (fun _ => "goodsig") (some "badsig")
        ⟨some "case.updated", some ⟨"c1", "closed"⟩⟩ 0 []
      = (.error ⟨500, strHTTPException 401 "Invalid signature"⟩, []) :=
  (C4_webhook_signature (fun _ => "goodsig") (some "badsig")
      ⟨some "case.updated", some ⟨"c1", "closed"⟩⟩ 0 []).2.1
    "badsig" rfl (by decide)

/-- C10: an exception while processing one message of the scan does not
abort process_unread_emails: the loop continues with the remaining
messages and the failed message contributes no entry, so the returned
list is exactly the successfully processed messages in inbox order
(the filterMap of the per-message results over the unread list). -/
theorem C10_scan_error_isolation (fetch : Nat → Except PyExc RawEmail)
    (llm : String → Except PyExc String)
    (forward : String → RawEmail → Except PyExc Unit) :
    (∀ msgs, process_unread_emails fetch llm forward msgs
      = msgs.filterMap (fun n => (process_one_email fetch llm forward n).toOption))
    ∧ (∀ pre post bad e, process_one_email fetch llm forward bad = .error e →
      process_unread_emails fetch llm forward (pre ++ bad :: post)
        = process_unread_emails fetch llm forward (pre ++ post)) := by
  constructor
  · intro msgs
    induction msgs with
    | nil => rfl
    | cons n rest ih =>
      simp only [process_unread_emails, List.filterMap_cons]
      cases h : process_one_email fetch llm forward n with
      | ok entry => simp [h, ih, Except.toOption]
      | error e => simp [h, ih, Except.toOption]
  · intro pre post bad e hbad
    induction pre with
    | nil =>
      simp only [List.nil_append, process_unread_emails, hbad]
    | cons n rest ih =>
      simp only [List.cons_append, process_unread_emails, List.append_eq]
      rw [ih]

theorem C10_witness :
    process_unread_emails
        (fun n => if n == 2 then .error ⟨"fetch failed"⟩
          else .ok ⟨"subj", "a@b.com", "complaint text"⟩)
        (fun _ => .ok "complaint text") (fun _ _ => .ok ())
        ([1] ++ 2 :: [3])
      = process_unread_emails
        (fun n => if n == 2 then .error ⟨"fetch failed"⟩
          else .ok ⟨"subj", "a@b.com", "complaint text"⟩)
        (fun _ => .ok "complaint text") (fun _ _ => .ok ())
        ([1] ++ [3]) :=
  (C10_scan_error_isolation
      (fun n => if n == 2 then .error ⟨"fetch failed"⟩
        else .ok ⟨"subj", "a@b.com", "complaint text"⟩)
      (fun _ => .ok "complaint text") (fun _ _ => .ok ())).2
    [1] [3] 2 ⟨"fetch failed"⟩ (by decide)
